import Mathlib

/-!
Shallow embedding of the data-model slice of `gdk_rust` (files
`gdk_common/src/model.rs` and `gdk_electrum/src/error.rs`): derivation-path
classification, multi-asset UTXO resolution, transaction metadata
construction and enrichment, balance-display serialization, and the SPV
verification state.  Rust `u32`/`u64`/`usize` values are modelled as `Nat`,
`i64` as `Int` (with two's-complement wrapping made explicit where it can
occur), `HashMap` iteration as an association list in iteration order, and
fallible operations as `Except`.  Calls to the wall clock (`now()`) are
modelled by passing the sampled value explicitly.
-/

namespace Gdk

/-- Modelled from the spec: the unified error taxonomy of `gdk_common`
(`crate::error::Error`, not under `src/`; §4.5 of the spec and mirrored by
`gdk_electrum/src/error.rs`): a generic/message error, unknown-operation,
invalid-mnemonic, persistence error, address parse error, chain-library
errors (general, key-derivation, consensus-encoding), structured-data parse
error, I/O error, hex-decode error.  Payloads of the lower-layer causes are
modelled as strings. -/
inductive Error where
  | Generic (message : String)
  | UnknownCall
  | InvalidMnemonic
  | DB (message : String)
  | AddrParse (message : String)
  | Bitcoin (message : String)
  | BitcoinBIP32Error (message : String)
  | BitcoinConsensus (message : String)
  | JSON (message : String)
  | StdIOError (message : String)
  | Hex (message : String)
  deriving DecidableEq, Repr

/-- One component of a BIP32 derivation path
(`bitcoin::util::bip32::ChildNumber`): a normal (non-hardened) or a
hardened child index. -/
inductive ChildNumber where
  | normal (index : Nat)
  | hardened (index : Nat)
  deriving DecidableEq, Repr

/-- `bitcoin::util::bip32::DerivationPath`: a sequence of child numbers. -/
abbrev DerivationPath := List ChildNumber

/-- Translation of `parse_path` (`model.rs:650-673`): walk the path from the
end; the last component must be normal and gives `address_pointer`, the
second-to-last must be normal and `is_internal` is whether its index is 1;
otherwise a `Generic` error. -/
def parse_path (path : DerivationPath) : Except Error (Bool × Nat) :=
  match path.reverse with
  | ChildNumber.normal index :: tail =>
    match tail with
    | ChildNumber.normal index2 :: _ =>
      Except.ok ((index2 == 1), index)
    | _ => Except.error (Error.Generic "Unexpected derivation path")
  | _ => Except.error (Error.Generic "Unexpected derivation path")

/-- `SPVVerifyTxResult` (`model.rs:250-259`). -/
inductive SPVVerifyTxResult where
  | Unconfirmed
  | InProgress
  | Verified
  | NotVerified
  | NotLongest
  | Disabled
  deriving DecidableEq, Repr

/-- `SPVVerifyTxResult::as_i32` (`model.rs:602-613`). -/
def SPVVerifyTxResult.as_i32 : SPVVerifyTxResult → Int
  | SPVVerifyTxResult.InProgress => 0
  | SPVVerifyTxResult.Verified => 1
  | SPVVerifyTxResult.NotVerified => 2
  | SPVVerifyTxResult.Disabled => 3
  | SPVVerifyTxResult.NotLongest => 4
  | SPVVerifyTxResult.Unconfirmed => 5

/-- `Display for SPVVerifyTxResult` (`model.rs:615-626`): the string tag
written by `fmt`. -/
def SPVVerifyTxResult.display : SPVVerifyTxResult → String
  | SPVVerifyTxResult.InProgress => "in_progress"
  | SPVVerifyTxResult.Verified => "verified"
  | SPVVerifyTxResult.NotVerified => "not_verified"
  | SPVVerifyTxResult.Disabled => "disabled"
  | SPVVerifyTxResult.NotLongest => "not_longest"
  | SPVVerifyTxResult.Unconfirmed => "unconfirmed"

instance : Fintype SPVVerifyTxResult where
  elems := {SPVVerifyTxResult.Unconfirmed, SPVVerifyTxResult.InProgress,
    SPVVerifyTxResult.Verified, SPVVerifyTxResult.NotVerified,
    SPVVerifyTxResult.NotLongest, SPVVerifyTxResult.Disabled}
  complete := by intro x; cases x <;> decide

/-- `BEScript` (from `crate::be`): an opaque script byte vector. -/
abbrev BEScript := List Nat

/-- `UnspentOutput` (`model.rs:631-647`). -/
structure UnspentOutput where
  address_type : String
  block_height : Nat
  pointer : Nat
  pt_idx : Nat
  satoshi : Nat
  subaccount : Nat
  txhash : String
  is_internal : Bool
  confidential : Bool
  derivation_path : DerivationPath
  scriptpubkey : BEScript
  deriving DecidableEq, Repr

/-- The `#[derive(Default)]` instance of `UnspentOutput`: empty strings,
zeroes, `false` flags, the empty (master) derivation path, empty script. -/
def UnspentOutput.default : UnspentOutput :=
  { address_type := ""
    block_height := 0
    pointer := 0
    pt_idx := 0
    satoshi := 0
    subaccount := 0
    txhash := ""
    is_internal := false
    confidential := false
    derivation_path := []
    scriptpubkey := [] }

/-- `GetUnspentOutputs` (`model.rs:628-629`): a `HashMap` from asset-key
string to a vector of unspent outputs, modelled as an association list in
the map's iteration order. -/
abbrev GetUnspentOutputs := List (String × List UnspentOutput)

/-- Modelled from the spec: `BEOutPoint` (from `crate::be`, not under
`src/`): a chain-tagged outpoint, txid plus vout, in a Bitcoin or an
Elements (multi-asset) variant.  The two txid types are external library
types, kept abstract. -/
inductive BEOutPoint (TxidB TxidE : Type) where
  | bitcoin (txid : TxidB) (vout : Nat)
  | elements (txid : TxidE) (vout : Nat)
  deriving DecidableEq, Repr

/-- `BEOutPoint::new_bitcoin`. -/
def BEOutPoint.new_bitcoin {TxidB TxidE : Type} (txid : TxidB) (vout : Nat) :
    BEOutPoint TxidB TxidE :=
  BEOutPoint.bitcoin txid vout

/-- `BEOutPoint::new_elements`. -/
def BEOutPoint.new_elements {TxidB TxidE : Type} (txid : TxidE) (vout : Nat) :
    BEOutPoint TxidB TxidE :=
  BEOutPoint.elements txid vout

/-- `BEOutPoint::vout`. -/
def BEOutPoint.vout {TxidB TxidE : Type} : BEOutPoint TxidB TxidE → Nat
  | BEOutPoint.bitcoin _ v => v
  | BEOutPoint.elements _ v => v

/-- Modelled from the spec: `UTXOInfo` (from `crate::be`, not under `src/`):
the info record of a resolved pair — value, script, optional height,
derivation path, and, for the multi-asset variant only, asset id and
confidentiality ("asset id is present iff the pair is multi-asset"). -/
structure UTXOInfo (AssetId : Type) where
  asset : Option AssetId
  value : Nat
  script : BEScript
  height : Option Nat
  path : DerivationPath
  confidential : Bool
  deriving DecidableEq, Repr

/-- Modelled from the spec: `UTXOInfo::new_bitcoin` — base-asset info pair,
"no asset id, no confidentiality tracked at this layer". -/
def UTXOInfo.new_bitcoin {AssetId : Type} (value : Nat) (script : BEScript)
    (height : Option Nat) (path : DerivationPath) : UTXOInfo AssetId :=
  { asset := none, value, script, height, path, confidential := false }

/-- Modelled from the spec: `UTXOInfo::new_elements` — multi-asset info pair
carrying the asset id and the per-output confidentiality flag. -/
def UTXOInfo.new_elements {AssetId : Type} (asset : AssetId) (value : Nat)
    (script : BEScript) (height : Option Nat) (path : DerivationPath)
    (confidential : Bool) : UTXOInfo AssetId :=
  { asset := some asset, value, script, height, path, confidential }

/-- `Utxos` (from `crate::be`): the resolved (outpoint, info) pairs. -/
abbrev Utxos (TxidB TxidE AssetId : Type) :=
  List (BEOutPoint TxidB TxidE × UTXOInfo AssetId)

section Resolution

variable {TxidB TxidE AssetId : Type}

/-- External string parsers (`str::parse` of `bitcoin::Txid`,
`elements::Txid` and the elements asset id — library code outside this
repository), each returning a parsed value or an `Error` obtained through
the `From` conversions that `?` applies. -/
structure Parsers (TxidB TxidE AssetId : Type) where
  btcTxid : String → Except Error TxidB
  elemTxid : String → Except Error TxidE
  assetId : String → Except Error AssetId

/-- The body of the inner loop of `TryFrom<&GetUnspentOutputs> for Utxos`
(`model.rs:699-728`): map `block_height` 0 to `None` and `n` to `Some n`,
then on key `"btc"` build the Bitcoin pair (parsing the txhash), otherwise
build the Elements pair (parsing the txhash, then the key as asset id). -/
def resolve_entry (P : Parsers TxidB TxidE AssetId) (asset : String)
    (e : UnspentOutput) : Except Error (BEOutPoint TxidB TxidE × UTXOInfo AssetId) :=
  let height : Option Nat :=
    match e.block_height with
    | 0 => none
    | n => some n
  if asset = "btc" then do
    let txid ← P.btcTxid e.txhash
    Except.ok (BEOutPoint.new_bitcoin txid e.pt_idx,
      UTXOInfo.new_bitcoin e.satoshi e.scriptpubkey height e.derivation_path)
  else do
    let txid ← P.elemTxid e.txhash
    let assetId ← P.assetId asset
    Except.ok (BEOutPoint.new_elements txid e.pt_idx,
      UTXOInfo.new_elements assetId e.satoshi e.scriptpubkey height
        e.derivation_path e.confidential)

/-- The inner `for e in v` loop of the `TryFrom` impl, pushing each resolved
pair onto the accumulated `utxos` vector. -/
def resolve_bucket (P : Parsers TxidB TxidE AssetId) (asset : String) :
    List UnspentOutput → Utxos TxidB TxidE AssetId →
    Except Error (Utxos TxidB TxidE AssetId)
  | [], utxos => Except.ok utxos
  | e :: rest, utxos => do
    let pair ← resolve_entry P asset e
    resolve_bucket P asset rest (utxos ++ [pair])

/-- The outer `for (asset, v) in unspent_outputs.0.iter()` loop. -/
def resolve_buckets (P : Parsers TxidB TxidE AssetId) :
    GetUnspentOutputs → Utxos TxidB TxidE AssetId →
    Except Error (Utxos TxidB TxidE AssetId)
  | [], utxos => Except.ok utxos
  | (asset, v) :: rest, utxos => do
    let utxos ← resolve_bucket P asset v utxos
    resolve_buckets P rest utxos

/-- Translation of `TryFrom<&GetUnspentOutputs> for Utxos`
(`model.rs:694-732`): iterate the asset buckets (in map-iteration order) and
within each bucket the caller-provided vector order, resolving every entry;
any entry's failure aborts the whole conversion. -/
def Utxos.try_from (P : Parsers TxidB TxidE AssetId)
    (unspent_outputs : GetUnspentOutputs) :
    Except Error (Utxos TxidB TxidE AssetId) :=
  resolve_buckets P unspent_outputs []

/-- The input entries of a collection, flattened across buckets in
iteration order, each tagged with its bucket's asset key. -/
def collectionEntries (u : GetUnspentOutputs) : List (String × UnspentOutput) :=
  u.flatMap (fun b => b.2.map (fun e => (b.1, e)))

/-- The txhash parse that resolution performs for an entry of the given
bucket fails: the Bitcoin txid parse under the reserved key `"btc"`, the
Elements txid parse under any other key. -/
def txhashParseFails (P : Parsers TxidB TxidE AssetId) (asset : String)
    (e : UnspentOutput) : Prop :=
  if asset = "btc" then ∃ err, P.btcTxid e.txhash = Except.error err
  else ∃ err, P.elemTxid e.txhash = Except.error err

/-- The resolution contract in the spec's words ("produce the list of
Resolved Outpoint/Info pairs, one per entry across all asset buckets",
"preserving caller-provided ordering within each asset bucket"): resolve
the tagged entries one after the other, in order, emitting exactly one
output pair per entry; compared with the accumulator-style `try_from` in
the refinement theorem. -/
def resolvedPairsSpec (P : Parsers TxidB TxidE AssetId) :
    List (String × UnspentOutput) → Except Error (Utxos TxidB TxidE AssetId)
  | [] => Except.ok []
  | pe :: rest => do
    let pair ← resolve_entry P pe.1 pe.2
    let tail ← resolvedPairsSpec P rest
    Except.ok (pair :: tail)

/-- Parsers (over trivial parsed types) for which every parse succeeds. -/
def sampleParsersOk : Parsers Unit Unit Unit :=
  { btcTxid := fun _ => Except.ok ()
    elemTxid := fun _ => Except.ok ()
    assetId := fun _ => Except.ok () }

/-- Parsers for which every asset-id parse fails with a hex-decode error,
while txid parses succeed. -/
def sampleParsersBadAsset : Parsers Unit Unit Unit :=
  { btcTxid := fun _ => Except.ok ()
    elemTxid := fun _ => Except.ok ()
    assetId := fun _ => Except.error (Error.Hex "bad hex") }

/-- A default unspent-output record at the given chain height. -/
def sampleUnspent (height : Nat) : UnspentOutput :=
  { UnspentOutput.default with block_height := height }

/-- Translation of `UnspentOutput::new` (`model.rs:675-692`): start from the
derived default, fill the fields from the outpoint and info record, set
`is_internal` and `pointer` from `parse_path` of the info's derivation path
when it succeeds (leaving the defaults when it fails), and map an absent
height to `block_height` 0.  `showTxid` stands for
`format!("{}", outpoint.txid())`, a display of external library txid
types. -/
def UnspentOutput.new {TxidB TxidE AssetId : Type}
    (showTxid : BEOutPoint TxidB TxidE → String)
    (outpoint : BEOutPoint TxidB TxidE) (info : UTXOInfo AssetId) :
    UnspentOutput :=
  let u0 := UnspentOutput.default
  let u1 := { u0 with
    address_type := "p2shwpkh"
    satoshi := info.value
    txhash := showTxid outpoint
    pt_idx := outpoint.vout
    derivation_path := info.path
    scriptpubkey := info.script
    confidential := info.confidential }
  let u2 :=
    match parse_path info.path with
    | Except.ok (is_internal, pointer) => { u1 with is_internal, pointer }
    | Except.error _ => u1
  { u2 with block_height := info.height.getD 0 }

end Resolution

/-- `Balances` (`model.rs:17`): a `HashMap<String, i64>` of signed per-asset
satoshi amounts, modelled as an association list in iteration order. -/
abbrev Balances := List (String × Int)

/-- `bitcoin::Network` (external library enum). -/
inductive Network where
  | bitcoin
  | testnet
  | signet
  | regtest
  deriving DecidableEq, Repr

/-- `UtxoStrategy` (`model.rs:96-104`). -/
inductive UtxoStrategy where
  | Default
  | Manual
  deriving DecidableEq, Repr

/-- `AddressAmount` (`model.rs:77-83`). -/
structure AddressAmount where
  address : String
  satoshi : Nat
  asset_id : Option String
  deriving DecidableEq, Repr

/-- `AddressIO` (`model.rs:363-382`); its `address_type` field, a
`StringSerialized<AddressType>`, is modelled by its string rendering. -/
structure AddressIo where
  address : String
  address_type : String
  addressee : String
  is_output : Bool
  is_relevant : Bool
  is_spent : Bool
  is_internal : Bool
  pointer : Nat
  pt_idx : Nat
  satoshi : Nat
  asset_id : String
  assetblinder : String
  amountblinder : String
  script_type : Nat
  subaccount : Nat
  subtype : Nat
  deriving DecidableEq, Repr

/-- `TxListItem` (`model.rs:408-436`). -/
structure TxListItem where
  block_height : Nat
  created_at_ts : Nat
  type_ : String
  memo : String
  txhash : String
  satoshi : Balances
  rbf_optin : Bool
  can_cpfp : Bool
  can_rbf : Bool
  has_payment_request : Bool
  server_signed : Bool
  user_signed : Bool
  instant : Bool
  spv_verified : String
  fee : Nat
  fee_rate : Nat
  addressees : List String
  inputs : List AddressIo
  outputs : List AddressIo
  transaction_size : Nat
  transaction_vsize : Nat
  transaction_weight : Nat
  deriving DecidableEq, Repr

/-- `CreateTransaction` (`model.rs:112-134`). -/
structure CreateTransaction where
  addressees : List AddressAmount
  fee_rate : Option Nat
  subaccount : Nat
  send_all : Bool
  previous_transaction : Option TxListItem
  memo : Option String
  utxos : GetUnspentOutputs
  num_confs : Nat
  confidential_utxos_only : Bool
  utxo_strategy : UtxoStrategy
  deriving DecidableEq, Repr

/-- The `#[derive(Default)]` instance of `CreateTransaction`: empty
addressees, absent options, zeroes, `false` flags, empty collection, and
the `Default` UTXO strategy (`model.rs:106-110`). -/
def CreateTransaction.default : CreateTransaction :=
  { addressees := []
    fee_rate := none
    subaccount := 0
    send_all := false
    previous_transaction := none
    memo := none
    utxos := []
    num_confs := 0
    confidential_utxos_only := false
    utxo_strategy := UtxoStrategy.Default }

/-- Rust `i64::abs` under release (two's-complement wrapping) semantics: the
absolute value, except at `i64::MIN = -2^63`, whose negation overflows back
to `i64::MIN` itself. -/
def i64_abs (v : Int) : Int :=
  if v = -(2 ^ 63) then -(2 ^ 63) else |v|

/-- Translation of `serialize_tx_balances` (`model.rs:441-450`): the
serializer for `TxListItem.satoshi` clones the balance map and replaces
every value `v` by `v.abs()` (an `i64` absolute value), then serializes the
resulting map. -/
def serialize_tx_balances (balances : Balances) : Balances :=
  balances.map (fun p => (p.1, i64_abs p.2))

/-- Floor of the base-2 logarithm, computed with explicit fuel (structural
recursion, so that the kernel can evaluate it); `log2Fuel fuel n` is exact
whenever `n < 2 ^ fuel`. -/
def log2Fuel : Nat → Nat → Nat
  | 0, _ => 0
  | fuel + 1, n => if 2 ≤ n then log2Fuel fuel (n / 2) + 1 else 0

/-- Rounding of a `usize` value to `f32` (round to nearest, ties to even,
24-bit significand), exact for values up to `2 ^ 24`; valid for all
`n < 2 ^ 64`. -/
def roundF32 (n : Nat) : Nat :=
  if n ≤ 2 ^ 24 then n
  else
    let k := log2Fuel 64 n - 23
    let q := n / 2 ^ k
    let r := n % 2 ^ k
    let half := 2 ^ (k - 1)
    if r < half then q * 2 ^ k
    else if half < r then (q + 1) * 2 ^ k
    else if q % 2 = 0 then q * 2 ^ k
    else (q + 1) * 2 ^ k

/-- The expression `(weight as f32 / 4.0) as usize` (`model.rs:320`): the
cast to `f32` rounds to the nearest representable value; the division by
`4.0` is exact (a power of two, no subnormals in range); the cast back to
`usize` truncates toward zero, i.e. takes the floor. -/
def vsize_of_weight (weight : Nat) : Nat :=
  roundF32 weight / 4

/-- Modelled from the spec: the raw backend transaction
(`crate::be::BETransaction`, not under `src/`), abstracted by the
observations bare construction makes of it: txid rendered as a string,
consensus serialization rendered as hex, RBF opt-in read from the sequence
fields, weight, and size. -/
structure BETransaction where
  txidStr : String
  serializedHex : String
  rbf_optin : Bool
  weight : Nat
  size : Nat
  deriving DecidableEq, Repr

/-- Modelled from the spec: `crate::be::BETransactionEntry` (not under
`src/`): a transaction together with its cached size and weight, as used by
`From<BETransactionEntry> for TransactionMeta` (`model.rs:325-332`). -/
structure BETransactionEntry where
  tx : BETransaction
  size : Nat
  weight : Nat
  deriving DecidableEq, Repr

/-- `TransactionMeta` (`model.rs:261-291`). -/
structure TransactionMeta where
  create_transaction : Option CreateTransaction
  hex : String
  txid : String
  height : Option Nat
  timestamp : Nat
  error : String
  addressees_have_assets : Bool
  addressees_read_only : Bool
  is_sweep : Bool
  satoshi : Balances
  fee : Nat
  network : Option Network
  type_ : String
  changes_used : Option Nat
  rbf_optin : Bool
  user_signed : Bool
  spv_verified : SPVVerifyTxResult
  weight : Nat
  vsize : Nat
  size : Nat
  deriving DecidableEq, Repr

/-- Translation of `From<BETransaction> for TransactionMeta`
(`model.rs:293-324`); the wall-clock sample that `now()` takes is passed in
as `nowVal`. -/
def TransactionMeta.fromBETransaction (nowVal : Nat)
    (transaction : BETransaction) : TransactionMeta :=
  let txid := transaction.txidStr
  let hex := transaction.serializedHex
  let timestamp := nowVal
  let rbf_optin := transaction.rbf_optin
  let weight := transaction.weight
  { create_transaction := none
    height := none
    timestamp
    txid
    hex
    error := ""
    addressees_have_assets := false
    addressees_read_only := false
    is_sweep := false
    satoshi := []
    fee := 0
    network := none
    type_ := "unknown"
    changes_used := none
    user_signed := false
    spv_verified := SPVVerifyTxResult.InProgress
    rbf_optin
    weight
    vsize := vsize_of_weight weight
    size := transaction.size }

/-- Translation of `From<BETransactionEntry> for TransactionMeta`
(`model.rs:325-332`): convert the inner transaction, then overwrite `weight`
and `size` with the entry's cached values (note: `vsize` is not
recomputed). -/
def TransactionMeta.fromBETransactionEntry (nowVal : Nat)
    (txe : BETransactionEntry) : TransactionMeta :=
  let txm := TransactionMeta.fromBETransaction nowVal txe.tx
  { txm with weight := txe.weight, size := txe.size }

/-- A concrete raw transaction of the given weight (empty txid and hex,
RBF opt-out, size 0), used for concrete evaluations. -/
def sampleTx (w : Nat) : BETransaction :=
  { txidStr := "", serializedHex := "", rbf_optin := false, weight := w, size := 0 }

/-- A concrete transaction entry: a `sampleTx` of weight `wtx` with cached
entry weight `wentry` and cached size 0. -/
def sampleEntry (wtx wentry : Nat) : BETransactionEntry :=
  { tx := sampleTx wtx, size := 0, weight := wentry }

/-- Translation of `TransactionMeta::new` (`model.rs:333-361`).  The first
argument models the result of `transaction.into()`; `nowVal` is the
wall-clock sample that the `now` in `timestamp.unwrap_or_else(now)` would
take at enrichment time. -/
def TransactionMeta.new (nowVal : Nat) (transaction : TransactionMeta)
    (height : Option Nat) (timestamp : Option Nat) (satoshi : Balances)
    (fee : Nat) (network : Network) (type_ : String)
    (create_transaction : CreateTransaction) (user_signed : Bool)
    (spv_verified : SPVVerifyTxResult) : TransactionMeta :=
  let wgtx := transaction
  let timestamp := timestamp.getD nowVal
  { wgtx with
    create_transaction := some create_transaction
    height
    timestamp
    satoshi
    network := some network
    fee
    type_
    user_signed
    spv_verified }

end Gdk

namespace GdkCheck

example : Gdk.parse_path [Gdk.ChildNumber.hardened 44, Gdk.ChildNumber.hardened 1,
    Gdk.ChildNumber.hardened 0, Gdk.ChildNumber.normal 0, Gdk.ChildNumber.normal 0] =
    Except.ok (false, 0) := rfl

example : Gdk.parse_path [Gdk.ChildNumber.hardened 44, Gdk.ChildNumber.hardened 1,
    Gdk.ChildNumber.hardened 0, Gdk.ChildNumber.normal 1, Gdk.ChildNumber.normal 7] =
    Except.ok (true, 7) := rfl

example : Gdk.parse_path [Gdk.ChildNumber.normal 3] =
    Except.error (Gdk.Error.Generic "Unexpected derivation path") := rfl

example : Gdk.parse_path [Gdk.ChildNumber.hardened 1, Gdk.ChildNumber.normal 3] =
    Except.error (Gdk.Error.Generic "Unexpected derivation path") := rfl

end GdkCheck

namespace Gdk

/-- C1: for every derivation path whose last two components are both normal,
`parse_path` returns `Ok (is_internal, address_pointer)` with
`address_pointer` the last component's index and `is_internal` true iff the
second-to-last component's index equals 1; for every path in which the last
or the second-to-last component is absent or hardened, `parse_path` returns
a structural (`Generic`) error. -/
theorem parse_path_classifies :
    (∀ (pre : DerivationPath) (j i : Nat),
        parse_path (pre ++ [ChildNumber.normal j, ChildNumber.normal i]) =
          Except.ok (((j == 1) : Bool), i)) ∧
    (∀ path : DerivationPath,
        (path.length < 2 ∨
          (∃ pre c j, path = pre ++ [ChildNumber.hardened j, c]) ∨
          (∃ pre c i, path = pre ++ [c, ChildNumber.hardened i])) →
        parse_path path = Except.error (Error.Generic "Unexpected derivation path")) := by
  constructor
  · intro pre j i
    simp [parse_path, List.reverse_append]
  · intro path h
    rcases h with hlen | ⟨pre, c, j, rfl⟩ | ⟨pre, c, i, rfl⟩
    · cases path with
      | nil => rfl
      | cons a t =>
        cases t with
        | nil => cases a <;> rfl
        | cons b t' => exact absurd hlen (by simp)
    · cases c <;> simp [parse_path, List.reverse_append]
    · simp [parse_path, List.reverse_append]

/-- Witness for `parse_path_classifies`: the spec's own examples
`m/44'/1'/0'/0/0 → (false, 0)` and `m/44'/1'/0'/1/0 → (true, 0)`, and a
hardened-tail path rejected with the structural error. -/
theorem parse_path_classifies_witness :
    parse_path [ChildNumber.hardened 44, ChildNumber.hardened 1,
        ChildNumber.hardened 0, ChildNumber.normal 0, ChildNumber.normal 0] =
      Except.ok (false, 0) ∧
    parse_path [ChildNumber.hardened 44, ChildNumber.hardened 1,
        ChildNumber.hardened 0, ChildNumber.normal 1, ChildNumber.normal 0] =
      Except.ok (true, 0) ∧
    parse_path [ChildNumber.normal 0, ChildNumber.hardened 2] =
      Except.error (Error.Generic "Unexpected derivation path") := by
  refine ⟨?_, ?_, ?_⟩
  · exact parse_path_classifies.1
      [ChildNumber.hardened 44, ChildNumber.hardened 1, ChildNumber.hardened 0] 0 0
  · exact parse_path_classifies.1
      [ChildNumber.hardened 44, ChildNumber.hardened 1, ChildNumber.hardened 0] 1 0
  · exact parse_path_classifies.2 _
      (Or.inr (Or.inr ⟨[], ChildNumber.normal 0, 2, rfl⟩))

end Gdk

namespace Gdk

/-- C9: the SPV verification state maps to its numeric code and string tag
exactly as fixed by the contract — `in_progress ↔ 0`, `verified ↔ 1`,
`not_verified ↔ 2`, `disabled ↔ 3`, `not_longest ↔ 4`, `unconfirmed ↔ 5` —
and both mappings are injective over the six states, so the state
round-trips through its tags and codes without loss. -/
theorem spv_verify_tx_result_codes :
    (SPVVerifyTxResult.InProgress.as_i32 = 0 ∧
      SPVVerifyTxResult.Verified.as_i32 = 1 ∧
      SPVVerifyTxResult.NotVerified.as_i32 = 2 ∧
      SPVVerifyTxResult.Disabled.as_i32 = 3 ∧
      SPVVerifyTxResult.NotLongest.as_i32 = 4 ∧
      SPVVerifyTxResult.Unconfirmed.as_i32 = 5) ∧
    (SPVVerifyTxResult.InProgress.display = "in_progress" ∧
      SPVVerifyTxResult.Verified.display = "verified" ∧
      SPVVerifyTxResult.NotVerified.display = "not_verified" ∧
      SPVVerifyTxResult.Disabled.display = "disabled" ∧
      SPVVerifyTxResult.NotLongest.display = "not_longest" ∧
      SPVVerifyTxResult.Unconfirmed.display = "unconfirmed") ∧
    Function.Injective SPVVerifyTxResult.as_i32 ∧
    Function.Injective SPVVerifyTxResult.display := by
  refine ⟨by decide, by decide, ?_, ?_⟩
  · intro a b h
    cases a <;> cases b <;> first | rfl | simp [SPVVerifyTxResult.as_i32] at h
  · intro a b h
    cases a <;> cases b <;> first | rfl | simp [SPVVerifyTxResult.display] at h

/-- C7: every `TransactionMeta` produced by bare construction carries the
neutral defaults in its higher-level fields: empty per-asset balance map,
fee 0, type `"unknown"`, SPV state in-progress, empty error string, absent
height, absent creation request, and `user_signed = false`. -/
theorem bare_construction_defaults (nowVal : Nat) (tx : BETransaction) :
    (TransactionMeta.fromBETransaction nowVal tx).satoshi = [] ∧
    (TransactionMeta.fromBETransaction nowVal tx).fee = 0 ∧
    (TransactionMeta.fromBETransaction nowVal tx).type_ = "unknown" ∧
    (TransactionMeta.fromBETransaction nowVal tx).spv_verified =
      SPVVerifyTxResult.InProgress ∧
    (TransactionMeta.fromBETransaction nowVal tx).error = "" ∧
    (TransactionMeta.fromBETransaction nowVal tx).height = none ∧
    (TransactionMeta.fromBETransaction nowVal tx).create_transaction = none ∧
    (TransactionMeta.fromBETransaction nowVal tx).user_signed = false :=
  ⟨rfl, rfl, rfl, rfl, rfl, rfl, rfl, rfl⟩

/-- C3 counterexample: bare construction computes `vsize` as
`(weight as f32 / 4.0) as usize`, and the `f32` cast rounds weights above
`2^24`: at weight 16777219 it stores `vsize = 4194305` although
`floor(16777219 / 4) = 4194304`.  Moreover entry-based construction
overwrites `weight` with the entry's cached weight without recomputing
`vsize`, so a cached weight of 401 over a transaction of weight 100 stores
`vsize = 25`, not `floor(401 / 4) = 100`. -/
theorem vsize_floor_counterexample :
    ((TransactionMeta.fromBETransaction 0 (sampleTx 16777219)).weight = 16777219 ∧
      (TransactionMeta.fromBETransaction 0 (sampleTx 16777219)).vsize = 4194305 ∧
      (16777219 : Nat) / 4 = 4194304) ∧
    ((TransactionMeta.fromBETransactionEntry 0 (sampleEntry 100 401)).weight = 401 ∧
      (TransactionMeta.fromBETransactionEntry 0 (sampleEntry 100 401)).vsize = 25) := by
  exact ⟨⟨by decide, by decide, by decide⟩, ⟨by decide, by decide⟩⟩

/-- C3 amended: `vsize = floor(weight / 4)` of the stored weight holds for
bare construction from a raw transaction whenever the weight is at most
`2^24` (where the `f32` cast is exact) — in particular for weight 0 and for
weights not divisible by 4, e.g. 401 ↦ 100 — and for entry-based
construction additionally whenever the entry's cached weight agrees with
its transaction's weight. -/
theorem vsize_floor_of_small_weight :
    (∀ (nowVal : Nat) (tx : BETransaction), tx.weight ≤ 2 ^ 24 →
      (TransactionMeta.fromBETransaction nowVal tx).vsize =
        (TransactionMeta.fromBETransaction nowVal tx).weight / 4) ∧
    (∀ (nowVal : Nat) (txe : BETransactionEntry),
      txe.weight = txe.tx.weight → txe.tx.weight ≤ 2 ^ 24 →
      (TransactionMeta.fromBETransactionEntry nowVal txe).vsize =
        (TransactionMeta.fromBETransactionEntry nowVal txe).weight / 4) := by
  have hexact : ∀ w : Nat, w ≤ 2 ^ 24 → vsize_of_weight w = w / 4 := by
    intro w hw
    unfold vsize_of_weight roundF32
    rw [if_pos hw]
  constructor
  · intro nowVal tx hw
    exact hexact tx.weight hw
  · intro nowVal txe hagree hw
    show vsize_of_weight txe.tx.weight = txe.weight / 4
    rw [hagree]
    exact hexact txe.tx.weight hw

/-- Witness for `vsize_floor_of_small_weight`: weight 401 gives vsize 100
and weight 0 gives vsize 0, through both construction paths. -/
theorem vsize_floor_of_small_weight_witness :
    (TransactionMeta.fromBETransaction 0 (sampleTx 401)).vsize = 100 ∧
    (TransactionMeta.fromBETransaction 0 (sampleTx 0)).vsize = 0 ∧
    (TransactionMeta.fromBETransactionEntry 0 (sampleEntry 401 401)).vsize = 100 := by
  have h := vsize_floor_of_small_weight
  refine ⟨?_, ?_, ?_⟩
  · exact (h.1 0 (sampleTx 401) (by decide)).trans (by decide)
  · exact (h.1 0 (sampleTx 0) (by decide)).trans (by decide)
  · exact (h.2 0 (sampleEntry 401 401) rfl (by decide)).trans (by decide)

end Gdk

namespace Gdk

/-- C6 counterexample: when no timestamp is supplied, `TransactionMeta::new`
does not keep the bare-construction timestamp — it calls `now()` again
(`timestamp.unwrap_or_else(now)`).  With the clock reading 0 at bare
construction and 1 at enrichment, the enriched timestamp is 1, not the bare
timestamp 0. -/
theorem enrichment_timestamp_counterexample :
    (TransactionMeta.fromBETransaction 0 (sampleTx 4)).timestamp = 0 ∧
    (TransactionMeta.new 1 (TransactionMeta.fromBETransaction 0 (sampleTx 4))
        none none [] 0 Network.bitcoin "incoming" CreateTransaction.default
        false SPVVerifyTxResult.Verified).timestamp = 1 ∧
    (TransactionMeta.new 1 (TransactionMeta.fromBETransaction 0 (sampleTx 4))
        none none [] 0 Network.bitcoin "incoming" CreateTransaction.default
        false SPVVerifyTxResult.Verified).timestamp ≠
      (TransactionMeta.fromBETransaction 0 (sampleTx 4)).timestamp := by
  exact ⟨rfl, rfl, by decide⟩

/-- C6 amended: `TransactionMeta::new` returns a record whose height,
satoshi balances, fee, network, type, user-signed flag, SPV state and
creation request equal exactly the supplied arguments, and whose timestamp
equals the supplied timestamp when one is given — but when none is given
the timestamp is freshly sampled from the wall clock at enrichment time
(`unwrap_or_else(now)`), which need not equal the bare-construction
timestamp. -/
theorem enrichment_reflects_arguments (nowVal : Nat) (wgtx : TransactionMeta)
    (height : Option Nat) (timestamp : Option Nat) (satoshi : Balances)
    (fee : Nat) (network : Network) (type_ : String)
    (create_transaction : CreateTransaction) (user_signed : Bool)
    (spv_verified : SPVVerifyTxResult) :
    (TransactionMeta.new nowVal wgtx height timestamp satoshi fee network
        type_ create_transaction user_signed spv_verified).height = height ∧
    (TransactionMeta.new nowVal wgtx height timestamp satoshi fee network
        type_ create_transaction user_signed spv_verified).satoshi = satoshi ∧
    (TransactionMeta.new nowVal wgtx height timestamp satoshi fee network
        type_ create_transaction user_signed spv_verified).fee = fee ∧
    (TransactionMeta.new nowVal wgtx height timestamp satoshi fee network
        type_ create_transaction user_signed spv_verified).network = some network ∧
    (TransactionMeta.new nowVal wgtx height timestamp satoshi fee network
        type_ create_transaction user_signed spv_verified).type_ = type_ ∧
    (TransactionMeta.new nowVal wgtx height timestamp satoshi fee network
        type_ create_transaction user_signed spv_verified).user_signed = user_signed ∧
    (TransactionMeta.new nowVal wgtx height timestamp satoshi fee network
        type_ create_transaction user_signed spv_verified).spv_verified = spv_verified ∧
    (TransactionMeta.new nowVal wgtx height timestamp satoshi fee network
        type_ create_transaction user_signed spv_verified).create_transaction =
      some create_transaction ∧
    (∀ t, timestamp = some t →
      (TransactionMeta.new nowVal wgtx height timestamp satoshi fee network
          type_ create_transaction user_signed spv_verified).timestamp = t) ∧
    (timestamp = none →
      (TransactionMeta.new nowVal wgtx height timestamp satoshi fee network
          type_ create_transaction user_signed spv_verified).timestamp = nowVal) := by
  refine ⟨rfl, rfl, rfl, rfl, rfl, rfl, rfl, rfl, ?_, ?_⟩
  · intro t ht
    simp [TransactionMeta.new, ht]
  · intro ht
    simp [TransactionMeta.new, ht]

/-- Witness for `enrichment_reflects_arguments`: a concrete enrichment with
an explicit timestamp override reads back every supplied field. -/
theorem enrichment_reflects_arguments_witness :
    (TransactionMeta.new 7 (TransactionMeta.fromBETransaction 0 (sampleTx 4))
        (some 3) (some 42) [("btc", -5)] 9 Network.regtest "outgoing"
        CreateTransaction.default true SPVVerifyTxResult.NotLongest).height = some 3 ∧
    (TransactionMeta.new 7 (TransactionMeta.fromBETransaction 0 (sampleTx 4))
        (some 3) (some 42) [("btc", -5)] 9 Network.regtest "outgoing"
        CreateTransaction.default true SPVVerifyTxResult.NotLongest).satoshi =
      [("btc", -5)] ∧
    (TransactionMeta.new 7 (TransactionMeta.fromBETransaction 0 (sampleTx 4))
        (some 3) (some 42) [("btc", -5)] 9 Network.regtest "outgoing"
        CreateTransaction.default true SPVVerifyTxResult.NotLongest).fee = 9 ∧
    (TransactionMeta.new 7 (TransactionMeta.fromBETransaction 0 (sampleTx 4))
        (some 3) (some 42) [("btc", -5)] 9 Network.regtest "outgoing"
        CreateTransaction.default true SPVVerifyTxResult.NotLongest).spv_verified =
      SPVVerifyTxResult.NotLongest ∧
    (TransactionMeta.new 7 (TransactionMeta.fromBETransaction 0 (sampleTx 4))
        (some 3) (some 42) [("btc", -5)] 9 Network.regtest "outgoing"
        CreateTransaction.default true SPVVerifyTxResult.NotLongest).timestamp = 42 := by
  have h := enrichment_reflects_arguments 7
    (TransactionMeta.fromBETransaction 0 (sampleTx 4)) (some 3) (some 42)
    [("btc", -5)] 9 Network.regtest "outgoing" CreateTransaction.default true
    SPVVerifyTxResult.NotLongest
  exact ⟨h.1, h.2.1, h.2.2.1, h.2.2.2.2.2.2.1,
    h.2.2.2.2.2.2.2.2.1 42 rfl⟩

/-- C8 counterexample: the balance-display serializer applies `i64::abs`,
which at `i64::MIN = -2^63` overflows back to `i64::MIN` (release,
two's-complement semantics), so that one balance value keeps its sign
instead of being emitted as its absolute value. -/
theorem serialize_tx_balances_counterexample :
    serialize_tx_balances [("btc", -(2 ^ 63))] = [("btc", -(2 ^ 63))] ∧
    (-(2 ^ 63) : Int) < 0 ∧
    (-(2 ^ 63) : Int) ≠ |(-(2 ^ 63) : Int)| := by
  refine ⟨?_, by decide, by decide⟩
  simp [serialize_tx_balances, i64_abs]

/-- C8 amended: for every signed balance map all of whose values lie
strictly above `i64::MIN = -2^63`, serialization emits each balance as its
absolute value, dropping the sign whether the original value was positive,
negative or zero; the single exception `i64::MIN` maps to itself. -/
theorem serialize_tx_balances_abs (balances : Balances)
    (h : ∀ p ∈ balances, -(2 ^ 63) < p.2) :
    serialize_tx_balances balances = balances.map (fun p => (p.1, |p.2|)) := by
  unfold serialize_tx_balances
  apply List.map_congr_left
  intro p hp
  have hlt := h p hp
  have hne : p.2 ≠ -(2 ^ 63) := by omega
  simp only [i64_abs]
  rw [if_neg hne]

/-- Witness for `serialize_tx_balances_abs`: the spec's example
`{"btc": -5000, "asset1": 200}` serializes as
`{"btc": 5000, "asset1": 200}`. -/
theorem serialize_tx_balances_abs_witness :
    serialize_tx_balances [("btc", -5000), ("asset1", 200)] =
      [("btc", 5000), ("asset1", 200)] := by
  exact (serialize_tx_balances_abs [("btc", -5000), ("asset1", 200)]
    (by decide)).trans (by decide)

/-- C10: every `UnspentOutput` built by `UnspentOutput::new` stores
`is_internal` and `pointer` derived from the stored derivation path:
whenever `parse_path` succeeds on the info's path with `(i, p)`, the
constructed output has `is_internal = i`, `pointer = p`, and its stored
`derivation_path` is that very path. -/
theorem unspent_output_new_derives_pointer {TxidB TxidE AssetId : Type}
    (showTxid : BEOutPoint TxidB TxidE → String)
    (outpoint : BEOutPoint TxidB TxidE) (info : UTXOInfo AssetId)
    (i : Bool) (p : Nat) (h : parse_path info.path = Except.ok (i, p)) :
    (UnspentOutput.new showTxid outpoint info).is_internal = i ∧
    (UnspentOutput.new showTxid outpoint info).pointer = p ∧
    (UnspentOutput.new showTxid outpoint info).derivation_path = info.path := by
  unfold UnspentOutput.new
  rw [h]
  exact ⟨rfl, rfl, rfl⟩

/-- Witness for `unspent_output_new_derives_pointer`: a concrete pair whose
path `m/44'/1/5` classifies as internal with pointer 5. -/
theorem unspent_output_new_derives_pointer_witness :
    (UnspentOutput.new (fun _ => "txid")
        (BEOutPoint.bitcoin () 0 : BEOutPoint Unit Unit)
        { asset := (none : Option Unit), value := 7, script := [],
          height := none,
          path := [ChildNumber.hardened 44, ChildNumber.normal 1,
            ChildNumber.normal 5],
          confidential := false }).is_internal = true ∧
    (UnspentOutput.new (fun _ => "txid")
        (BEOutPoint.bitcoin () 0 : BEOutPoint Unit Unit)
        { asset := (none : Option Unit), value := 7, script := [],
          height := none,
          path := [ChildNumber.hardened 44, ChildNumber.normal 1,
            ChildNumber.normal 5],
          confidential := false }).pointer = 5 := by
  have h := unspent_output_new_derives_pointer (fun _ => "txid")
    (BEOutPoint.bitcoin () 0 : BEOutPoint Unit Unit)
    { asset := (none : Option Unit), value := 7, script := [], height := none,
      path := [ChildNumber.hardened 44, ChildNumber.normal 1,
        ChildNumber.normal 5],
      confidential := false } true 5 rfl
  exact ⟨h.1, h.2.1⟩

end Gdk

namespace Gdk

section ResolutionTheorems

variable {TxidB TxidE AssetId : Type}

@[simp]
lemma exceptBind_ok {ε α β : Type} (a : α) (f : α → Except ε β) :
    (Except.ok a : Except ε α) >>= f = f a := rfl

@[simp]
lemma exceptBind_error {ε α β : Type} (e : ε) (f : α → Except ε β) :
    (Except.error e : Except ε α) >>= f = Except.error e := rfl

lemma resolve_entry_fails_of_txhash (P : Parsers TxidB TxidE AssetId)
    (asset : String) (e : UnspentOutput) (h : txhashParseFails P asset e) :
    ∃ err, resolve_entry P asset e = Except.error err := by
  by_cases hb : asset = "btc"
  · rw [txhashParseFails, if_pos hb] at h
    obtain ⟨err, herr⟩ := h
    exact ⟨err, by simp [resolve_entry, hb, herr]⟩
  · rw [txhashParseFails, if_neg hb] at h
    obtain ⟨err, herr⟩ := h
    exact ⟨err, by simp [resolve_entry, hb, herr]⟩

lemma resolve_entry_fails_of_asset (P : Parsers TxidB TxidE AssetId)
    (asset : String) (e : UnspentOutput) (hb : asset ≠ "btc")
    (ha : ∃ err, P.assetId asset = Except.error err) :
    ∃ err, resolve_entry P asset e = Except.error err := by
  obtain ⟨err, herr⟩ := ha
  cases ht : P.elemTxid e.txhash with
  | error err2 => exact ⟨err2, by simp [resolve_entry, hb, ht]⟩
  | ok t => exact ⟨err, by simp [resolve_entry, hb, ht, herr]⟩

lemma resolve_bucket_fails (P : Parsers TxidB TxidE AssetId) (asset : String)
    (v : List UnspentOutput)
    (h : ∃ e ∈ v, ∃ err, resolve_entry P asset e = Except.error err) :
    ∀ acc, ∃ err, resolve_bucket P asset v acc = Except.error err := by
  induction v with
  | nil => exact absurd h (by simp)
  | cons eh rest ih =>
    intro acc
    obtain ⟨e, he, err, herr⟩ := h
    cases hre : resolve_entry P asset eh with
    | error err2 => exact ⟨err2, by simp [resolve_bucket, hre]⟩
    | ok pair =>
      rcases List.mem_cons.mp he with rfl | hmem
      · rw [hre] at herr
        exact absurd herr (by simp)
      · obtain ⟨err2, h2⟩ := ih ⟨e, hmem, err, herr⟩ (acc ++ [pair])
        refine ⟨err2, ?_⟩
        simpa [resolve_bucket, hre] using h2

lemma resolve_buckets_fails (P : Parsers TxidB TxidE AssetId)
    (u : GetUnspentOutputs)
    (h : ∃ b ∈ u, ∃ e ∈ b.2, ∃ err, resolve_entry P b.1 e = Except.error err) :
    ∀ acc, ∃ err, resolve_buckets P u acc = Except.error err := by
  induction u with
  | nil => exact absurd h (by simp)
  | cons bh rest ih =>
    intro acc
    obtain ⟨a, v⟩ := bh
    obtain ⟨b', hb', hfail⟩ := h
    rcases List.mem_cons.mp hb' with rfl | hmem
    · obtain ⟨errB, hB⟩ := resolve_bucket_fails P a v hfail acc
      exact ⟨errB, by simp [resolve_buckets, hB]⟩
    · cases hB : resolve_bucket P a v acc with
      | error errB => exact ⟨errB, by simp [resolve_buckets, hB]⟩
      | ok acc2 =>
        obtain ⟨err2, h2⟩ := ih ⟨b', hmem, hfail⟩ acc2
        refine ⟨err2, ?_⟩
        simpa [resolve_buckets, hB] using h2

/-- C2 amended: if any asset key other than the reserved `"btc"` labels a
non-empty bucket and fails to parse as an asset id, or any entry's txhash
string fails to parse as a txid, then the whole resolution returns an error
and yields no partial result; no malformed entry is silently skipped.  (The
asset key of an empty bucket is never parsed — see the counterexample.) -/
theorem try_from_fails_on_malformed (P : Parsers TxidB TxidE AssetId)
    (u : GetUnspentOutputs)
    (h : (∃ b ∈ u, b.1 ≠ "btc" ∧ b.2 ≠ [] ∧
            ∃ err, P.assetId b.1 = Except.error err) ∨
      (∃ b ∈ u, ∃ e ∈ b.2, txhashParseFails P b.1 e)) :
    ∃ err, Utxos.try_from P u = Except.error err := by
  have hfail : ∃ b ∈ u, ∃ e ∈ b.2,
      ∃ err, resolve_entry P b.1 e = Except.error err := by
    rcases h with ⟨b, hb, hne, hnonempty, ha⟩ | ⟨b, hb, e, he, hx⟩
    · obtain ⟨e, rest, hv⟩ := List.exists_cons_of_ne_nil hnonempty
      refine ⟨b, hb, e, ?_, resolve_entry_fails_of_asset P b.1 e hne ha⟩
      rw [hv]
      exact List.mem_cons_self e rest
    · exact ⟨b, hb, e, he, resolve_entry_fails_of_txhash P b.1 e hx⟩
  simpa [Utxos.try_from] using resolve_buckets_fails P u hfail []

/-- Witness for `try_from_fails_on_malformed`: a single-entry bucket under a
non-`"btc"` key whose asset-id parse fails makes the whole resolution
fail. -/
theorem try_from_fails_on_malformed_witness :
    ∃ err, Utxos.try_from sampleParsersBadAsset [("aa", [sampleUnspent 0])] =
      Except.error err := by
  apply try_from_fails_on_malformed
  left
  exact ⟨("aa", [sampleUnspent 0]), by simp, by decide, by simp,
    Error.Hex "bad hex", rfl⟩

/-- C2 counterexample: a malformed asset key labelling an *empty* bucket is
never parsed — resolution succeeds even though a non-`"btc"` key of the
collection fails to parse as an asset id, so the claim as stated (any
malformed asset key fails the whole resolution) is false. -/
theorem try_from_empty_bucket_counterexample :
    Utxos.try_from sampleParsersBadAsset [("zz", [])] = Except.ok [] ∧
    sampleParsersBadAsset.assetId "zz" = Except.error (Error.Hex "bad hex") ∧
    "zz" ≠ "btc" :=
  ⟨rfl, rfl, by decide⟩

lemma resolve_entry_ok_height (P : Parsers TxidB TxidE AssetId)
    (asset : String) (e : UnspentOutput) (op : BEOutPoint TxidB TxidE)
    (info : UTXOInfo AssetId)
    (h : resolve_entry P asset e = Except.ok (op, info)) :
    info.height = match e.block_height with | 0 => none | n => some n := by
  by_cases hb : asset = "btc"
  · cases ht : P.btcTxid e.txhash with
    | error err =>
      rw [resolve_entry.eq_def] at h
      simp [hb, ht] at h
    | ok t =>
      rw [resolve_entry.eq_def] at h
      simp [hb, ht, UTXOInfo.new_bitcoin, Prod.ext_iff] at h
      obtain ⟨h1, h2⟩ := h
      rw [← h2]
  · cases ht : P.elemTxid e.txhash with
    | error err =>
      rw [resolve_entry.eq_def] at h
      simp [hb, ht] at h
    | ok t =>
      cases ha : P.assetId asset with
      | error err =>
        rw [resolve_entry.eq_def] at h
        simp [hb, ht, ha] at h
      | ok aid =>
        rw [resolve_entry.eq_def] at h
        simp [hb, ht, ha, UTXOInfo.new_elements, Prod.ext_iff] at h
        obtain ⟨h1, h2⟩ := h
        rw [← h2]

/-- C4: in both the base-asset and the multi-asset branch of resolution, an
input record with `block_height = 0` resolves to an info record with an
absent height (never `some 0`), and one with `block_height = n > 0`
resolves to height `some n`. -/
theorem resolved_height_zero_is_none (P : Parsers TxidB TxidE AssetId)
    (asset : String) (e : UnspentOutput) (op : BEOutPoint TxidB TxidE)
    (info : UTXOInfo AssetId)
    (h : resolve_entry P asset e = Except.ok (op, info)) :
    (e.block_height = 0 → info.height = none) ∧
    (0 < e.block_height → info.height = some e.block_height) := by
  have hinfo := resolve_entry_ok_height P asset e op info h
  constructor
  · intro hbh
    rw [hinfo, hbh]
  · intro hbh
    rw [hinfo]
    cases hb2 : e.block_height with
    | zero => omega
    | succ n => rfl

/-- Witness for `resolved_height_zero_is_none`: a height-0 entry under the
`"btc"` key resolves to an absent height, and a height-5 entry under a
multi-asset key resolves to `some 5`. -/
theorem resolved_height_zero_is_none_witness :
    (UTXOInfo.new_bitcoin 0 [] none [] : UTXOInfo Unit).height = none ∧
    (UTXOInfo.new_elements () 0 [] (some 5) [] false).height = some 5 := by
  refine ⟨?_, ?_⟩
  · exact (resolved_height_zero_is_none sampleParsersOk "btc" (sampleUnspent 0)
      (BEOutPoint.bitcoin () 0) (UTXOInfo.new_bitcoin 0 [] none []) rfl).1 rfl
  · exact (resolved_height_zero_is_none sampleParsersOk "aa" (sampleUnspent 5)
      (BEOutPoint.elements () 0) (UTXOInfo.new_elements () 0 [] (some 5) [] false)
      rfl).2 (by decide)

end ResolutionTheorems

end Gdk

namespace Gdk

section OrderTheorems

variable {TxidB TxidE AssetId : Type}

lemma resolvedPairsSpec_append (P : Parsers TxidB TxidE AssetId)
    (l1 l2 : List (String × UnspentOutput)) :
    resolvedPairsSpec P (l1 ++ l2) =
      resolvedPairsSpec P l1 >>= fun a =>
        resolvedPairsSpec P l2 >>= fun b => Except.ok (a ++ b) := by
  induction l1 with
  | nil =>
    simp only [List.nil_append, resolvedPairsSpec, exceptBind_ok]
    cases h2 : resolvedPairsSpec P l2 with
    | error err => simp
    | ok b => simp
  | cons pe rest ih =>
    simp only [List.cons_append, resolvedPairsSpec, List.append_eq]
    cases hre : resolve_entry P pe.1 pe.2 with
    | error err => simp
    | ok pair =>
      simp only [exceptBind_ok]
      rw [ih]
      cases hrest : resolvedPairsSpec P rest with
      | error err => simp
      | ok ra =>
        simp only [exceptBind_ok]
        cases h2 : resolvedPairsSpec P l2 with
        | error err => simp
        | ok b => simp

lemma resolvedPairsSpec_length (P : Parsers TxidB TxidE AssetId)
    (l : List (String × UnspentOutput)) :
    ∀ r, resolvedPairsSpec P l = Except.ok r → r.length = l.length := by
  induction l with
  | nil =>
    intro r h
    simp only [resolvedPairsSpec, Except.ok.injEq] at h
    subst h
    rfl
  | cons pe rest ih =>
    intro r h
    simp only [resolvedPairsSpec] at h
    cases hre : resolve_entry P pe.1 pe.2 with
    | error err => rw [hre] at h; simp at h
    | ok pair =>
      rw [hre] at h
      cases hrest : resolvedPairsSpec P rest with
      | error err => rw [hrest] at h; simp at h
      | ok tail =>
        rw [hrest] at h
        simp only [exceptBind_ok, Except.ok.injEq] at h
        subst h
        simp [ih tail hrest]

lemma resolve_bucket_eq (P : Parsers TxidB TxidE AssetId) (a : String)
    (v : List UnspentOutput) (acc : Utxos TxidB TxidE AssetId) :
    resolve_bucket P a v acc =
      resolvedPairsSpec P (v.map (fun e => (a, e))) >>= fun r =>
        Except.ok (acc ++ r) := by
  induction v generalizing acc with
  | nil => simp [resolve_bucket, resolvedPairsSpec]
  | cons e rest ih =>
    simp only [resolve_bucket, List.map_cons, resolvedPairsSpec]
    cases hre : resolve_entry P a e with
    | error err => simp
    | ok pair =>
      simp only [exceptBind_ok]
      rw [ih (acc ++ [pair])]
      cases hrs : resolvedPairsSpec P (rest.map (fun e => (a, e))) with
      | error err => simp
      | ok tail => simp

lemma resolve_buckets_eq (P : Parsers TxidB TxidE AssetId)
    (u : GetUnspentOutputs) (acc : Utxos TxidB TxidE AssetId) :
    resolve_buckets P u acc =
      resolvedPairsSpec P (collectionEntries u) >>= fun r =>
        Except.ok (acc ++ r) := by
  induction u generalizing acc with
  | nil => simp [resolve_buckets, collectionEntries, resolvedPairsSpec]
  | cons b rest ih =>
    obtain ⟨a, v⟩ := b
    simp only [resolve_buckets]
    rw [resolve_bucket_eq]
    have hce : collectionEntries ((a, v) :: rest) =
        v.map (fun e => (a, e)) ++ collectionEntries rest := by
      simp [collectionEntries]
    rw [hce, resolvedPairsSpec_append]
    cases hv : resolvedPairsSpec P (v.map (fun e => (a, e))) with
    | error err => simp
    | ok r1 =>
      simp only [exceptBind_ok]
      rw [ih (acc ++ r1)]
      cases hr : resolvedPairsSpec P (collectionEntries rest) with
      | error err => simp
      | ok r2 => simp

/-- C5: whenever resolution succeeds, its output is exactly the entry-wise
resolution of the collection's entries flattened across buckets in
iteration order — one resolved (outpoint, info) pair per input entry, none
dropped, none deduplicated, and within each asset bucket the pairs appear
in the caller-provided order of that bucket's entries; in particular the
output length equals the total entry count. -/
theorem try_from_resolves_each_entry_in_order
    (P : Parsers TxidB TxidE AssetId) (u : GetUnspentOutputs)
    (l : Utxos TxidB TxidE AssetId)
    (h : Utxos.try_from P u = Except.ok l) :
    resolvedPairsSpec P (collectionEntries u) = Except.ok l ∧
    l.length = (collectionEntries u).length := by
  unfold Utxos.try_from at h
  rw [resolve_buckets_eq] at h
  cases hs : resolvedPairsSpec P (collectionEntries u) with
  | error err => rw [hs] at h; simp at h
  | ok r =>
    rw [hs] at h
    simp only [exceptBind_ok, List.nil_append, Except.ok.injEq] at h
    subst h
    exact ⟨rfl, resolvedPairsSpec_length P _ _ hs⟩

/-- Witness for `try_from_resolves_each_entry_in_order`: a collection with a
base-asset bucket and a multi-asset bucket resolves to one pair per entry,
in bucket order. -/
theorem try_from_resolves_each_entry_in_order_witness :
    resolvedPairsSpec sampleParsersOk
        (collectionEntries [("btc", [sampleUnspent 0]), ("aa", [sampleUnspent 5])]) =
      Except.ok
        [(BEOutPoint.bitcoin () 0,
            { asset := none, value := 0, script := [], height := none,
              path := [], confidential := false }),
          (BEOutPoint.elements () 0,
            { asset := some (), value := 0, script := [], height := some 5,
              path := [], confidential := false })] ∧
    ([(BEOutPoint.bitcoin () 0,
          { asset := none, value := 0, script := [], height := none,
            path := [], confidential := false }),
        (BEOutPoint.elements () 0,
          { asset := some (), value := 0, script := [], height := some 5,
            path := [], confidential := false })] :
        Utxos Unit Unit Unit).length =
      (collectionEntries
        [("btc", [sampleUnspent 0]), ("aa", [sampleUnspent 5])]).length :=
  try_from_resolves_each_entry_in_order sampleParsersOk
    [("btc", [sampleUnspent 0]), ("aa", [sampleUnspent 5])] _ rfl

end OrderTheorems

end Gdk
